import Mathlib

/-!
# Verification of the dual-credential scan delegator and its collaborators

Shallow embedding of the Python sources of the scanned repository:

* `src/modules/mt1_telegram.py`  — `TelegramModule` (`connect`,
  `get_participants`, `delegate_task`);
* `src/modules/bot_manager.py`   — `BotManager` (`get_group_members`, and the
  set of attributes the class actually defines);
* `src/modules/config_manager.py` — `LoadBalancer.calculate_delay`,
  `ConfigManager.execute_with_rate_limit`, `ConfigManager.load_config`,
  `ConfigManager.is_config_complete`;
* `src/modules/mdb1_database.py` — the three `INSERT … ON DUPLICATE KEY
  UPDATE` upserts against the `users`, `groups` and `participants` tables;
* `src/main.py`                  — the startup sequence around config loading.

External effects (the telethon client, the wall clock, the MySQL pool) are
modelled as explicit oracle inputs of type `Except PyErr _` / `Bool`; calls
to `asyncio.sleep` and to the two credential sessions are recorded in an
event trace so that temporal and provenance properties can be stated.
-/

/-- Exceptions that matter to the embedded control flow.  `attributeError`
models Python's failed attribute lookup; `chatAdminRequired` models
`telethon.errors.ChatAdminRequiredError`; `floodWait s` models
`telethon.errors.FloodWaitError` carrying `e.seconds = s`. -/
inductive PyErr where
  | attributeError (msg : String)
  | chatAdminRequired
  | floodWait (seconds : Nat)
  | rpcError (msg : String)
  | other (msg : String)
deriving DecidableEq, Repr

/-- The printable message of an exception, as `str(e)` would produce it. -/
def PyErr.message : PyErr → String
  | .attributeError msg => msg
  | .chatAdminRequired => "Chat admin privileges are required"
  | .floodWait s => "A wait of " ++ toString s ++ " seconds is required"
  | .rpcError msg => msg
  | .other msg => msg

/-- A scanned participant; only its identity matters to the delegation
logic, so it is abbreviated to the platform user id. -/
abbrev Member := Int

/-- Observable events of one embedded call: which session was invoked with
which method, and every `asyncio.sleep` with its duration in seconds. -/
inductive Ev where
  | botCall (method : String)
  | accountCall (method : String)
  | sleep (seconds : Nat)
deriving DecidableEq, Repr

/-- `true` exactly on events that are calls into the bot session. -/
def Ev.isBotCall : Ev → Bool
  | .botCall _ => true
  | _ => false

/-- `TelegramModule.rate_limit_delay`, set to `2` in `__init__`
(mt1_telegram.py line 40). -/
def rate_limit_delay : Nat := 2

/-- The methods defined in `class BotManager` (bot_manager.py), in source
order.  Note the absence of `is_connected`. -/
def botManagerMethods : List String :=
  ["__init__", "set_config_manager", "check_status", "start",
   "_handle_first_auth", "_ensure_session_dir", "stop", "get_profile_data",
   "get_group_members", "monitor_group", "add_message_handler",
   "handle_account_updates", "_process_update", "_handle_message_update",
   "_handle_status_update"]

/-- The instance attributes assigned in `BotManager.__init__` / `start`
(bot_manager.py). -/
def botManagerInstanceAttrs : List String :=
  ["sessions_dir", "logger", "session_name", "session_path", "bot",
   "bot_token", "_connected", "_tasks", "status", "config_manager"]

instance {ε α : Type} [DecidableEq ε] [DecidableEq α] : DecidableEq (Except ε α) :=
  fun x y =>
    match x, y with
    | .ok a, .ok b =>
        if h : a = b then .isTrue (by rw [h]) else .isFalse (by simp [h])
    | .error a, .error b =>
        if h : a = b then .isTrue (by rw [h]) else .isFalse (by simp [h])
    | .ok _, .error _ => .isFalse (by simp)
    | .error _, .ok _ => .isFalse (by simp)

/-- One `BotManager` instance as the delegator sees it: its `_connected`
flag and the oracle outcome of `get_group_members(target_id)`. -/
structure BotMgr where
  _connected : Bool
  getGroupMembers : Except PyErr (List Member)
deriving DecidableEq, Repr

/-- Python attribute lookup of `is_connected` on a `BotManager` instance,
as performed by `delegate_task`'s guard
`await self.bot_manager.is_connected()` (mt1_telegram.py line 1218).
`class BotManager` defines no method and sets no instance attribute of
that name, so the lookup raises `AttributeError`.  Had the attribute
existed it would report the connection flag, which the rest of the code
keeps in `_connected`. -/
def botManagerIsConnected (bm : BotMgr) : Except PyErr Bool :=
  if botManagerMethods.contains "is_connected"
      || botManagerInstanceAttrs.contains "is_connected" then
    .ok bm._connected
  else
    .error (.attributeError "'BotManager' object has no attribute 'is_connected'")

/-- Oracle inputs of one `TelegramModule.get_participants` call
(mt1_telegram.py lines 187–202): the outcomes of
`self.client.get_entity(group_link)` and
`self.client.get_participants(entity, limit=limit)`. -/
structure GetParticipantsEnv where
  clientGetEntity : Except PyErr Unit
  clientGetParticipants : Except PyErr (List Member)
deriving DecidableEq, Repr

/-- `TelegramModule.get_participants` (mt1_telegram.py lines 187–202).
The whole body is one `try`: on success it sleeps `rate_limit_delay` and
returns the participants; `ChatAdminRequiredError` is logged and falls to
`return []`; `FloodWaitError` sleeps `e.seconds` and falls to
`return []`; any other exception is logged and falls to `return []`.
The `Except` in the result type records that no exception ever escapes:
every branch is `.ok`. -/
def TelegramModule.get_participants (env : GetParticipantsEnv) :
    Except PyErr (List Member) × List Ev :=
  match env.clientGetEntity with
  | .error .chatAdminRequired =>
      (.ok [], [.accountCall "client.get_entity"])
  | .error (.floodWait s) =>
      (.ok [], [.accountCall "client.get_entity", .sleep s])
  | .error _ =>
      (.ok [], [.accountCall "client.get_entity"])
  | .ok _ =>
    match env.clientGetParticipants with
    | .ok ps =>
        (.ok ps,
         [.accountCall "client.get_entity", .accountCall "client.get_participants",
          .sleep rate_limit_delay])
    | .error .chatAdminRequired =>
        (.ok [], [.accountCall "client.get_entity", .accountCall "client.get_participants"])
    | .error (.floodWait s) =>
        (.ok [], [.accountCall "client.get_entity", .accountCall "client.get_participants",
                  .sleep s])
    | .error _ =>
        (.ok [], [.accountCall "client.get_entity", .accountCall "client.get_participants"])

/-- Oracle inputs of one `TelegramModule.delegate_task` call
(mt1_telegram.py lines 1208–1244). -/
structure DelegateEnv where
  /-- `self.bot_manager` — `none` when no bot session is configured. -/
  botManager : Option BotMgr
  /-- Result of `await self.is_connected()` for the account session. -/
  accountConnected : Bool
  /-- Outcome of `self.get_entity(target_id)` on the account session
  (it raises on RPC errors, mt1_telegram.py lines 163–185). -/
  accountGetEntity : Except PyErr Unit
  /-- Oracles of the nested `self.get_participants(entity)` call. -/
  gpEnv : GetParticipantsEnv
deriving DecidableEq, Repr

/-- The dict `delegate_task` builds and returns. -/
structure DelegateResult where
  success : Bool
  data : Option (List Member)
  executor : Option String
  error : Option String
deriving DecidableEq, Repr

/-- The account-session phase of `delegate_task` (mt1_telegram.py lines
1230–1237): if `await self.is_connected()` then resolve the entity and
fetch participants through the account, tag `executor='account'`; else
fall through to `raise Exception("Neither bot nor account could complete
the task")`, which the outer handler turns into a failed result. -/
def TelegramModule.delegate_account_phase (env : DelegateEnv) (evs : List Ev) :
    DelegateResult × List Ev :=
  if env.accountConnected then
    match env.accountGetEntity with
    | .error e =>
        -- exception from self.get_entity propagates to the outer handler
        (⟨false, none, none, some e.message⟩, evs ++ [.accountCall "get_entity"])
    | .ok _ =>
        match TelegramModule.get_participants env.gpEnv with
        | (.ok ps, evs2) =>
            (⟨true, some ps, some "account", none⟩,
             evs ++ [.accountCall "get_entity"] ++ evs2)
        | (.error e, evs2) =>
            (⟨false, none, none, some e.message⟩,
             evs ++ [.accountCall "get_entity"] ++ evs2)
  else
    (⟨false, none, none, some "Neither bot nor account could complete the task"⟩, evs)

/-- `TelegramModule.delegate_task` for `task_type = 'get_participants'`
(mt1_telegram.py lines 1208–1244).  Control flow of the source:

* outer `try` — first the bot: `if self.bot_manager and await
  self.bot_manager.is_connected():`; the attribute lookup raises (see
  `botManagerIsConnected`), and that exception is caught only by the
  *outer* handler, which stores `str(e)` in `result['error']` and returns
  the failed result;
* the bot fetch itself sits in an inner `try` whose handler logs and
  falls through to the account phase;
* the account phase is `TelegramModule.delegate_account_phase`. -/
def TelegramModule.delegate_task (env : DelegateEnv) :
    DelegateResult × List Ev :=
  match env.botManager with
  | some bm =>
    match botManagerIsConnected bm with
    | .error e =>
        -- AttributeError reaches the outer `except Exception as e`
        (⟨false, none, none, some e.message⟩, [])
    | .ok true =>
        match bm.getGroupMembers with
        | .ok ms =>
            (⟨true, some ms, some "bot", none⟩, [.botCall "get_group_members"])
        | .error _ =>
            -- inner handler: log and fall back to the account
            TelegramModule.delegate_account_phase env [.botCall "get_group_members"]
    | .ok false =>
        TelegramModule.delegate_account_phase env []
  | none =>
      TelegramModule.delegate_account_phase env []

/-- Python truthiness of an optional string (`if self.bot_token:`):
`None` and the empty string are falsy. -/
def pyTruthyStr : Option String → Bool
  | none => false
  | some s => s ≠ ""

/-- The `TelegramModule` fields touched by `connect`
(mt1_telegram.py lines 33–42). -/
structure TgState where
  _is_connected : Bool
  _is_authorized : Bool
  /-- `self.bot_manager is not None`. -/
  bot_manager : Bool
  bot_token : Option String
deriving DecidableEq, Repr

/-- Oracle inputs of one `TelegramModule.connect` call: the outcomes of
`await self.client.connect()`, `await self.client.is_user_authorized()`,
and of constructing + starting the `BotManager`
(`BotManager(...)`, `await self.bot_manager.start()`). -/
structure ConnectEnv where
  clientConnect : Except PyErr Unit
  isUserAuthorized : Except PyErr Bool
  botStart : Except PyErr Unit
deriving DecidableEq, Repr

/-- `TelegramModule.connect` (mt1_telegram.py lines 44–73).  Control flow:

* if already connected, skip straight to the final sleep and return `True`;
* otherwise connect the account client, set `_is_connected := True`,
  refresh `_is_authorized`; then, only if a bot token is configured
  (truthy), build and start the `BotManager` inside an inner `try` whose
  handler logs and sets `self.bot_manager = None`;
* any exception outside that inner `try` hits the outer handler, which
  resets both flags and returns `False`. -/
def TelegramModule.connect (st : TgState) (env : ConnectEnv) :
    Bool × TgState × List Ev :=
  if st._is_connected then
    (true, st, [.sleep rate_limit_delay])
  else
    match env.clientConnect with
    | .error _ =>
        (false, { st with _is_connected := false, _is_authorized := false },
         [.accountCall "client.connect"])
    | .ok _ =>
      match env.isUserAuthorized with
      | .error _ =>
          (false, { st with _is_connected := false, _is_authorized := false },
           [.accountCall "client.connect", .accountCall "client.is_user_authorized"])
      | .ok auth =>
        let st1 := { st with _is_connected := true, _is_authorized := auth }
        if pyTruthyStr st.bot_token then
          match env.botStart with
          | .ok _ =>
              (true, { st1 with bot_manager := true },
               [.accountCall "client.connect", .accountCall "client.is_user_authorized",
                .botCall "start", .sleep rate_limit_delay])
          | .error _ =>
              (true, { st1 with bot_manager := false },
               [.accountCall "client.connect", .accountCall "client.is_user_authorized",
                .botCall "start", .sleep rate_limit_delay])
        else
          (true, st1,
           [.accountCall "client.connect", .accountCall "client.is_user_authorized",
            .sleep rate_limit_delay])

/-! ## The Rate Governor: `LoadBalancer` (config_manager.py lines 13–56)

Python floats are modelled as real numbers. -/

/-- The `LoadBalancer` fields that enter `calculate_delay` and the
backoff update of `execute_with_rate_limit`
(config_manager.py lines 13–24). -/
structure LoadBalancer where
  request_count : ℕ
  max_requests_per_window : ℝ
  base_delay : ℝ
  max_delay : ℝ
  backoff_factor : ℝ

/-- The load factor `self.request_count / (self.max_requests_per_window
or 1)` (config_manager.py line 36); Python's `or` substitutes `1` when
the configured maximum is falsy, i.e. zero. -/
noncomputable def LoadBalancer.loadFactor (lb : LoadBalancer) : ℝ :=
  (lb.request_count : ℝ) /
    (if lb.max_requests_per_window = 0 then 1 else lb.max_requests_per_window)

/-- `LoadBalancer.calculate_delay` (config_manager.py lines 26–52), with
the two sampled quantities made explicit: `windowExpired` is the outcome
of the test `current_time - self.window_start > self.time_window` (which
zeroes the request counter before the load factor is computed), and
`jitterCoeff` is the value drawn by `random.uniform(-0.2, 0.2)`.  The
tiers, the jitter `jitterCoeff * delay`, the cap
`min(delay + jitter, self.max_delay)` and the floor
`max(final_delay, 0.5)` follow the source line by line. -/
noncomputable def LoadBalancer.calculate_delay (lb : LoadBalancer)
    (windowExpired : Bool) (jitterCoeff : ℝ) : ℝ :=
  let count : ℕ := if windowExpired then 0 else lb.request_count
  let load_factor : ℝ := LoadBalancer.loadFactor { lb with request_count := count }
  let delay : ℝ :=
    if load_factor < 0.25 then lb.base_delay
    else if load_factor < 0.5 then lb.base_delay * 2
    else if load_factor < 0.75 then lb.base_delay * 3
    else lb.base_delay * lb.backoff_factor ^ (load_factor * 10)
  let jitter : ℝ := jitterCoeff * delay
  max (min (delay + jitter) lb.max_delay) 0.5

/-- The delay tiers exactly as §4.1/§8 of the specification word them:
`base` below load `0.25`, `2×base` below `0.5`, `3×base` below `0.75`,
else `base×backoff^(f×10)`, "each then clamped to max_delay and floored
at 0.5s".  Written from the specification, to be compared with
`LoadBalancer.calculate_delay`. -/
noncomputable def specUnjitteredDelay (base maxDelay backoff f : ℝ) : ℝ :=
  let tier : ℝ :=
    if f < 0.25 then base
    else if f < 0.5 then 2 * base
    else if f < 0.75 then 3 * base
    else base * backoff ^ (f * 10)
  max (min tier maxDelay) 0.5

/-- `ConfigManager.smart_delay` (config_manager.py lines 508–512): sleep
`calculate_delay()` then increment the request counter.  Returns the new
balancer state and the slept duration. -/
noncomputable def ConfigManager.smart_delay (lb : LoadBalancer)
    (windowExpired : Bool) (jitterCoeff : ℝ) : LoadBalancer × ℝ :=
  ({ lb with request_count := lb.request_count + 1 },
   lb.calculate_delay windowExpired jitterCoeff)

/-- `ConfigManager.execute_with_rate_limit` (config_manager.py lines
524–536): `smart_delay()`, then the wrapped coroutine; on an exception
the balancer's base delay becomes
`min(base_delay * backoff_factor, max_delay)` and the exception is
re-raised; on success the result is returned with the base delay
untouched. -/
noncomputable def ConfigManager.execute_with_rate_limit {α : Type}
    (lb : LoadBalancer) (windowExpired : Bool) (jitterCoeff : ℝ)
    (outcome : Except PyErr α) : Except PyErr α × LoadBalancer :=
  let lb1 := (ConfigManager.smart_delay lb windowExpired jitterCoeff).1
  match outcome with
  | .ok v => (.ok v, lb1)
  | .error e =>
      (.error e,
       { lb1 with base_delay := min (lb1.base_delay * lb1.backoff_factor) lb1.max_delay })

/-! ## The Persistence Sink: upserts of `mdb1_database.py`

A table is a list of rows; `INSERT … ON DUPLICATE KEY UPDATE` against a
table whose primary keys are unique either rewrites the row carrying the
key or appends a fresh one.  `CURRENT_TIMESTAMP` is the explicit `now`
argument (the insert path hits the column default
`TIMESTAMP DEFAULT CURRENT_TIMESTAMP`, the update path the explicit
`last_updated = CURRENT_TIMESTAMP` assignment; both yield `now`). -/

/-- Generic `INSERT … ON DUPLICATE KEY UPDATE` in which every non-key
column is in the update list, so a key collision rewrites the whole row. -/
def upsertByKey {R K : Type} [DecidableEq K] (key : R → K)
    (tbl : List R) (newRow : R) : List R :=
  if tbl.any (fun row => key row = key newRow) then
    tbl.map (fun row => if key row = key newRow then newRow else row)
  else
    tbl ++ [newRow]

/-- Number of rows of `tbl` carrying primary key `k`. -/
def keyCount {R K : Type} [DecidableEq K] (key : R → K)
    (tbl : List R) (k : K) : ℕ :=
  tbl.countP (fun row => key row = k)

/-- The PRIMARY KEY invariant: no key occurs on two rows. -/
def uniqueKeys {R K : Type} [DecidableEq K] (key : R → K) (tbl : List R) : Prop :=
  ∀ k : K, keyCount key tbl k ≤ 1

/-- A row of the `users` table (mdb1_database.py lines 29–41). -/
structure UserRow where
  id : Int
  first_name : Option String
  last_name : Option String
  username : Option String
  phone : Option String
  is_bot : Bool
  last_updated : Nat
deriving DecidableEq, Repr

/-- The `user_info` dict handed to `upsert_user`, after the `.get`
defaulting of mdb1_database.py lines 215–220 (`is_bot` defaults to
`False`). -/
structure UserRecord where
  id : Int
  first_name : Option String
  last_name : Option String
  username : Option String
  phone : Option String
  is_bot : Bool
deriving DecidableEq, Repr

/-- The row written for `r` at time `now`. -/
def UserRecord.toRow (r : UserRecord) (now : Nat) : UserRow :=
  ⟨r.id, r.first_name, r.last_name, r.username, r.phone, r.is_bot, now⟩

/-- `DatabaseModule.upsert_user` (mdb1_database.py lines 199–226): insert
keyed on `id`; on duplicate key update `first_name`, `last_name`,
`username`, `phone`, `is_bot` and `last_updated = CURRENT_TIMESTAMP`. -/
def DatabaseModule.upsert_user (tbl : List UserRow) (r : UserRecord)
    (now : Nat) : List UserRow :=
  upsertByKey (fun row => row.id) tbl (r.toRow now)

/-- A row of the `groups` table (mdb1_database.py lines 43–53). -/
structure GroupRow where
  id : Int
  title : Option String
  username : Option String
  participants_count : Option Int
  last_updated : Nat
deriving DecidableEq, Repr

/-- The `group_info` dict handed to `upsert_group`. -/
structure GroupRecord where
  id : Int
  title : Option String
  username : Option String
  participants_count : Option Int
deriving DecidableEq, Repr

/-- The row written for `r` at time `now`. -/
def GroupRecord.toRow (r : GroupRecord) (now : Nat) : GroupRow :=
  ⟨r.id, r.title, r.username, r.participants_count, now⟩

/-- `DatabaseModule.upsert_group` (mdb1_database.py lines 228–251): insert
keyed on `id`; on duplicate key update `title`, `username`,
`participants_count` and `last_updated = CURRENT_TIMESTAMP`. -/
def DatabaseModule.upsert_group (tbl : List GroupRow) (r : GroupRecord)
    (now : Nat) : List GroupRow :=
  upsertByKey (fun row => row.id) tbl (r.toRow now)

/-- A row of the `participants` table (mdb1_database.py lines 55–69),
with composite key `PRIMARY KEY (user_id, group_id)`. -/
structure ParticipantRow where
  user_id : Int
  group_id : Int
  first_name : Option String
  last_name : Option String
  username : Option String
  phone : Option String
  is_bot : Option Bool
  last_updated : Nat
deriving DecidableEq, Repr

/-- The `participant_info` dict handed to `upsert_participant`
(`is_bot` is `.get` with no default, hence optional). -/
structure ParticipantRecord where
  user_id : Int
  group_id : Int
  first_name : Option String
  last_name : Option String
  username : Option String
  phone : Option String
  is_bot : Option Bool
deriving DecidableEq, Repr

/-- The row written for `r` at time `now`. -/
def ParticipantRecord.toRow (r : ParticipantRecord) (now : Nat) : ParticipantRow :=
  ⟨r.user_id, r.group_id, r.first_name, r.last_name, r.username, r.phone, r.is_bot, now⟩

/-- `DatabaseModule.upsert_participant` (mdb1_database.py lines 253–283):
insert keyed on `(user_id, group_id)`; on duplicate key update the five
denormalized user columns and `last_updated = CURRENT_TIMESTAMP()`. -/
def DatabaseModule.upsert_participant (tbl : List ParticipantRow)
    (r : ParticipantRecord) (now : Nat) : List ParticipantRow :=
  upsertByKey (fun row => (row.user_id, row.group_id)) tbl (r.toRow now)

/-! ## Configuration loading and the startup sequence

`ConfigManager.load_config` (config_manager.py lines 151–217) and the
startup path of `main.py` (lines 69–96) around it.  Only the
`telegram.api_id` value steers the control flow the claims are about, so
the configuration file is abstracted to what it yields for that key. -/

/-- The JSON value found under `telegram.api_id`, classified by how
Python's checks in `load_config` treat it.  Strings are partitioned by
the behaviour of `int(s)`: accepted with value `n`, empty, whitespace
only, or rejected.  (`bool` counts as `intVal` since
`isinstance(True, int)` holds in Python.) -/
inductive JsonApiId where
  | null
  | strNumeric (n : Int)
  | strEmpty
  | strBlank
  | strBad
  | intVal (n : Int)
  | floatTrunc (n : Int)
  | otherType
deriving DecidableEq, Repr

/-- The configuration file as `load_config` sees it: absent, unparsable
JSON, or parsed — in which case the `telegram` section may be missing
(outer `Option`), and within it the `api_id` key may be missing (inner
`Option`). -/
inductive ConfigFile where
  | missing
  | unparsable
  | parsed (telegramSection : Option (Option JsonApiId))
deriving DecidableEq, Repr

/-- What `self.config['telegram']['api_id']` holds once `load_config`
returns: a validated integer, or the empty string `''` of
`get_default_config()` (config_manager.py line 343). -/
inductive LoadedApiId where
  | intVal (n : Int)
  | emptyStr
deriving DecidableEq, Repr

/-- `ConfigManager.load_config` (config_manager.py lines 151–217).  Every
failure path is caught inside the method and replaces `self.config` with
`get_default_config()` (whose `telegram.api_id` is `''`):

* file absent → defaults (lines 208–210);
* `json.JSONDecodeError` → defaults (lines 200–202);
* missing `telegram` section → filled with the default section, whose
  `api_id` is `''`, then rejected by the `is None or == ''` check →
  `ValueError` → defaults;
* `api_id` missing / `None` / `''` / blank / non-numeric string →
  `ValueError` → defaults;
* non-`str`/`int`/`float` type → `TypeError` → defaults;
* a numeric string, `int` or `float` is normalised with `int(...)`.

No exception escapes: the method always yields a configuration. -/
def ConfigManager.load_config : ConfigFile → LoadedApiId
  | .missing => .emptyStr
  | .unparsable => .emptyStr
  | .parsed none => .emptyStr
  | .parsed (some none) => .emptyStr
  | .parsed (some (some v)) =>
    match v with
    | .null => .emptyStr
    | .strEmpty => .emptyStr
    | .strBlank => .emptyStr
    | .strBad => .emptyStr
    | .strNumeric n => .intVal n
    | .intVal n => .intVal n
    | .floatTrunc n => .intVal n
    | .otherType => .emptyStr

/-- `ConfigManager.is_config_complete` (config_manager.py lines 253–286):
it refills missing or falsy required fields from the defaults (for
`api_id` the default is itself `''`, so an empty value stays empty) and
then unconditionally executes `return True` (line 286). -/
def ConfigManager.is_config_complete (_ : LoadedApiId) : Bool := true

/-- How a run of `main()` ends, as far as the configuration path is
concerned: an abort (`QMessageBox.critical(...)` followed by
`sys.exit(1)`) carrying the user-visible message, or a launch reaching
the rest of initialisation with the parsed `api_id`. -/
inductive StartupOutcome where
  | aborted (userMessage : String)
  | launched (apiId : Int)
deriving DecidableEq, Repr

/-- The startup sequence of `main.py` (lines 69–96) along the
configuration path: `load_config()`, then the `is_config_complete()`
gate (which aborts with its own dialog if it were ever false), then
`TelegramModule(api_id=int(telegram_config.get('api_id')), ...)` —
whose `int('')` raises `ValueError`, caught by the outer handler of
`main` which shows a critical dialog and exits with status 1. -/
def mainStartup (f : ConfigFile) : StartupOutcome :=
  let apiId := ConfigManager.load_config f
  if ConfigManager.is_config_complete apiId = false then
    .aborted "Configuration is incomplete. Please fill in all required fields."
  else
    match apiId with
    | .emptyStr =>
        .aborted "An error occurred: invalid literal for int() with base 10: ''"
    | .intVal n => .launched n

/-- `ConfigInvalid` contents in the sense of the specification:
unparsable JSON, or a parse that fails validation (missing or ill-typed
`telegram.api_id`). -/
def configInvalid : ConfigFile → Bool
  | .missing => false
  | .unparsable => true
  | .parsed none => true
  | .parsed (some none) => true
  | .parsed (some (some v)) =>
    match v with
    | .null => true
    | .strEmpty => true
    | .strBlank => true
    | .strBad => true
    | .strNumeric _ => false
    | .intVal _ => false
    | .floatTrunc _ => false
    | .otherType => true

/-! # Theorems -/

/-- **C1** — claimed: with a bot session present whose participant fetch
fails, `delegate_task` falls through to the account session and returns a
result tagged `executor='account'` whose data comes from the account.
The code diverges: `class BotManager` defines no `is_connected`, so the
guard `await self.bot_manager.is_connected()` raises `AttributeError`
whenever `self.bot_manager` is set; the outer handler turns that into a
failed result (`success=False`, `executor=None`, `data=None`) and the
account session is never attempted (empty event trace).  This theorem
evaluates the embedded code on every such input. -/
theorem c1_bot_present_delegation_always_fails
    (env : DelegateEnv) (bm : BotMgr) (h : env.botManager = some bm) :
    TelegramModule.delegate_task env =
      (⟨false, none, none,
        some "'BotManager' object has no attribute 'is_connected'"⟩, []) := by
  unfold TelegramModule.delegate_task
  rw [h]
  rfl

/-- Witness for `c1_bot_present_delegation_always_fails` at a concrete
environment: a connected bot whose fetch would report a permission error
and an account session that could serve the request. -/
theorem c1_bot_present_delegation_always_fails_witness :
    TelegramModule.delegate_task
        ⟨some ⟨true, .error .chatAdminRequired⟩, true, .ok (), ⟨.ok (), .ok [7]⟩⟩ =
      (⟨false, none, none,
        some "'BotManager' object has no attribute 'is_connected'"⟩, []) :=
  c1_bot_present_delegation_always_fails
    ⟨some ⟨true, .error .chatAdminRequired⟩, true, .ok (), ⟨.ok (), .ok [7]⟩⟩
    ⟨true, .error .chatAdminRequired⟩ rfl

/-- **C2** — with no bot session configured (`bot_manager is None`),
`delegate_task` makes no call into any bot session (the event trace
carries no bot call), and when the account session succeeds the result is
tagged `executor='account'` with `success=True`. -/
theorem c2_no_bot_skips_bot_and_tags_account
    (env : DelegateEnv) (h : env.botManager = none) :
    ((TelegramModule.delegate_task env).2.all (fun ev => !ev.isBotCall)) = true ∧
    (env.accountConnected = true → env.accountGetEntity = .ok () →
      (TelegramModule.delegate_task env).1.executor = some "account" ∧
      (TelegramModule.delegate_task env).1.success = true ∧
      (TelegramModule.delegate_task env).1.data =
        some ((TelegramModule.get_participants env.gpEnv).1.toOption.getD [])) := by
  obtain ⟨bm, ac, age, ⟨ge, gp⟩⟩ := env
  cases h
  unfold TelegramModule.delegate_task TelegramModule.delegate_account_phase
    TelegramModule.get_participants
  cases ac with
  | false => simp [Ev.isBotCall, Except.toOption]
  | true =>
    cases age with
    | error e => simp [Ev.isBotCall, Except.toOption]
    | ok u =>
      cases ge with
      | error e => cases e <;> simp [Ev.isBotCall, Except.toOption]
      | ok u' =>
        cases gp with
        | error e => cases e <;> simp [Ev.isBotCall, Except.toOption]
        | ok ps => simp [Ev.isBotCall, Except.toOption]

/-- Witness for `c2_no_bot_skips_bot_and_tags_account` at a concrete
environment with a successful account session. -/
theorem c2_no_bot_skips_bot_and_tags_account_witness :
    ((TelegramModule.delegate_task ⟨none, true, .ok (), ⟨.ok (), .ok [3, 4]⟩⟩).2.all
        (fun ev => !ev.isBotCall)) = true ∧
    (TelegramModule.delegate_task ⟨none, true, .ok (), ⟨.ok (), .ok [3, 4]⟩⟩).1.executor
        = some "account" ∧
    (TelegramModule.delegate_task ⟨none, true, .ok (), ⟨.ok (), .ok [3, 4]⟩⟩).1.success
        = true := by
  have h := c2_no_bot_skips_bot_and_tags_account
    ⟨none, true, .ok (), ⟨.ok (), .ok [3, 4]⟩⟩ rfl
  exact ⟨h.1, (h.2 rfl rfl).1, (h.2 rfl rfl).2.1⟩

/-- **C5** — claimed: `delegate_task` fails only when both sessions fail
or none is available, and succeeds whenever at least one session can
serve the request.  The code diverges: a connected bot session whose
`get_group_members` would return a member list can serve the request,
yet the delegator still returns `success=False` — the missing
`BotManager.is_connected` attribute aborts the whole call before either
session is used. -/
theorem c5_failure_despite_servable_bot
    (env : DelegateEnv) (bm : BotMgr) (ms : List Member)
    (h : env.botManager = some bm)
    (_hconn : bm._connected = true)
    (_hok : bm.getGroupMembers = .ok ms) :
    (TelegramModule.delegate_task env).1.success = false ∧
    (TelegramModule.delegate_task env).1.data = none := by
  unfold TelegramModule.delegate_task
  rw [h]
  exact ⟨rfl, rfl⟩

/-- Witness for `c5_failure_despite_servable_bot`: a connected bot that
would deliver the member list `[5]`. -/
theorem c5_failure_despite_servable_bot_witness :
    (TelegramModule.delegate_task
        ⟨some ⟨true, .ok [5]⟩, false, .ok (), ⟨.ok (), .ok []⟩⟩).1.success = false ∧
    (TelegramModule.delegate_task
        ⟨some ⟨true, .ok [5]⟩, false, .ok (), ⟨.ok (), .ok []⟩⟩).1.data = none :=
  c5_failure_despite_servable_bot
    ⟨some ⟨true, .ok [5]⟩, false, .ok (), ⟨.ok (), .ok []⟩⟩
    ⟨true, .ok [5]⟩ [5] rfl rfl rfl

/-- **C4**, counterexample — claimed: on `RateLimited(retry_after)` the
delegator sleeps at least `retry_after` seconds *bounded above by a
sanity cap of 300 seconds* before making the fallback attempt.  At
`retry_after = 400` the embedded code sleeps the full 400 seconds (no
cap is applied anywhere), and no fallback attempt follows the wait: the
call simply completes with an empty successful result. -/
theorem c4_counterexample_uncapped_sleep :
    TelegramModule.delegate_task ⟨none, true, .ok (), ⟨.ok (), .error (.floodWait 400)⟩⟩ =
      (⟨true, some [], some "account", none⟩,
       [.accountCall "get_entity", .accountCall "client.get_entity",
        .accountCall "client.get_participants", .sleep 400]) := rfl

/-- **C4**, amended — when the account session's participant fetch
reports a rate limit with `retry_after = s`, the delegator (through
`get_participants`) sleeps exactly `s` seconds with no upper cap, then
returns a successful result with an empty participant list; no further
fallback attempt is made after the wait.  A rate limit on the bot path
triggers no sleep at all (the bot phase aborts on the missing
`is_connected` attribute before any fetch). -/
theorem c4_rate_limited_sleeps_uncapped_then_returns_empty (s : Nat) :
    TelegramModule.delegate_task ⟨none, true, .ok (), ⟨.ok (), .error (.floodWait s)⟩⟩ =
      (⟨true, some [], some "account", none⟩,
       [.accountCall "get_entity", .accountCall "client.get_entity",
        .accountCall "client.get_participants", .sleep s]) := rfl

/-- **C6**, counterexample — claimed: `get_participants` fails with
`PermissionDenied` when the session lacks admin rights on the group.  At
the concrete input where `client.get_participants` raises
`ChatAdminRequiredError`, the embedded code returns the normal value
`.ok []` — an ordinary empty participant list — and no exception reaches
the caller. -/
theorem c6_counterexample_admin_error_swallowed :
    TelegramModule.get_participants ⟨.ok (), .error .chatAdminRequired⟩ =
      (.ok [],
       [.accountCall "client.get_entity", .accountCall "client.get_participants"]) := rfl

/-- **C6**, amended — whenever the participant fetch raises
`ChatAdminRequiredError` (the session lacks admin rights on the group),
`get_participants` logs the error and returns an empty participant list
to the caller; it does not raise `PermissionDenied`. -/
theorem c6_admin_required_returns_empty_list
    (env : GetParticipantsEnv)
    (hent : env.clientGetEntity = .ok ())
    (hpart : env.clientGetParticipants = .error .chatAdminRequired) :
    TelegramModule.get_participants env =
      (.ok [],
       [.accountCall "client.get_entity", .accountCall "client.get_participants"]) := by
  obtain ⟨ge, gp⟩ := env
  cases hent
  cases hpart
  rfl

/-- Witness for `c6_admin_required_returns_empty_list` at the concrete
environment where the entity resolves and the fetch is denied. -/
theorem c6_admin_required_returns_empty_list_witness :
    TelegramModule.get_participants ⟨.ok (), .error .chatAdminRequired⟩ =
      (.ok [],
       [.accountCall "client.get_entity", .accountCall "client.get_participants"]) :=
  c6_admin_required_returns_empty_list ⟨.ok (), .error .chatAdminRequired⟩ rfl rfl

/-- **C9** — for every configuration file with invalid contents
(unparsable JSON, or a missing/ill-typed `telegram.api_id`), startup
aborts with a user-visible error dialog and exit status 1 rather than
running with the silently substituted configuration.  Mechanism in the
code: `load_config` itself swallows the error and substitutes
`get_default_config()` (whose `api_id` is `''`), and the
`is_config_complete` gate returns `True` unconditionally, but `main`
then crashes user-visibly in `int('')` when constructing the
`TelegramModule`, hitting the outer handler's critical dialog and
`sys.exit(1)`. -/
theorem c9_invalid_config_aborts_startup
    (f : ConfigFile) (h : configInvalid f = true) :
    mainStartup f =
      .aborted "An error occurred: invalid literal for int() with base 10: ''" := by
  cases f with
  | missing => cases h
  | unparsable => rfl
  | parsed sec =>
    cases sec with
    | none => rfl
    | some v =>
      cases v with
      | none => rfl
      | some j => cases j <;> first | rfl | cases h

/-- Witness for `c9_invalid_config_aborts_startup` at the concrete
unparsable configuration file. -/
theorem c9_invalid_config_aborts_startup_witness :
    configInvalid .unparsable = true ∧
    mainStartup .unparsable =
      .aborted "An error occurred: invalid literal for int() with base 10: ''" :=
  ⟨rfl, c9_invalid_config_aborts_startup .unparsable rfl⟩

/-- **C10** — when `TelegramModule.connect` connects the account client
successfully but the configured bot session fails to construct or start,
`connect` still returns `True`, `self.bot_manager` is left as `None`,
and the account connection stays established (`_is_connected = True`):
a bot-credential failure never prevents or tears down the account
connection. -/
theorem c10_bot_start_failure_keeps_account_connection
    (st : TgState) (env : ConnectEnv) (b : Bool) (e : PyErr)
    (hni : st._is_connected = false)
    (htok : pyTruthyStr st.bot_token = true)
    (hcc : env.clientConnect = .ok ())
    (hau : env.isUserAuthorized = .ok b)
    (hbs : env.botStart = .error e) :
    TelegramModule.connect st env =
      (true, ⟨true, b, false, st.bot_token⟩,
       [.accountCall "client.connect", .accountCall "client.is_user_authorized",
        .botCall "start", .sleep rate_limit_delay]) := by
  obtain ⟨c, a, bm, tok⟩ := st
  obtain ⟨cc, au, bs⟩ := env
  cases hni
  cases hcc
  cases hau
  cases hbs
  simp only [TelegramModule.connect, htok, Bool.false_eq_true, if_false, if_true]

/-- Witness for `c10_bot_start_failure_keeps_account_connection` at a
concrete module state and environment: fresh state with a configured
token, account connect succeeding, bot start raising. -/
theorem c10_bot_start_failure_keeps_account_connection_witness :
    TelegramModule.connect ⟨false, false, false, some "123:abc"⟩
        ⟨.ok (), .ok true, .error (.other "bot auth failed")⟩ =
      (true, ⟨true, true, false, some "123:abc"⟩,
       [.accountCall "client.connect", .accountCall "client.is_user_authorized",
        .botCall "start", .sleep rate_limit_delay]) :=
  c10_bot_start_failure_keeps_account_connection
    ⟨false, false, false, some "123:abc"⟩
    ⟨.ok (), .ok true, .error (.other "bot auth failed")⟩
    true (.other "bot auth failed") rfl rfl rfl rfl rfl

/-! ### Generic facts about `upsertByKey` -/

theorem keyCount_eq_zero_of_not_any {R K : Type} [DecidableEq K] (key : R → K)
    (tbl : List R) (k : K)
    (h : ¬ tbl.any (fun row => key row = k) = true) :
    keyCount key tbl k = 0 := by
  unfold keyCount
  rw [List.countP_eq_zero]
  intro a ha hpa
  exact h (List.any_eq_true.mpr ⟨a, ha, hpa⟩)

theorem keyCount_pos_of_any {R K : Type} [DecidableEq K] (key : R → K)
    (tbl : List R) (k : K)
    (h : tbl.any (fun row => key row = k) = true) :
    0 < keyCount key tbl k := by
  unfold keyCount
  rw [List.countP_pos_iff]
  exact List.any_eq_true.mp h

/-- An upsert leaves the number of rows at its own key unchanged when the
key was present (the matching row is rewritten in place) and raises it by
one when it was absent (the row is appended). -/
theorem keyCount_upsertByKey_self {R K : Type} [DecidableEq K] (key : R → K)
    (tbl : List R) (r : R) :
    keyCount key (upsertByKey key tbl r) (key r) =
      if tbl.any (fun row => key row = key r) then keyCount key tbl (key r)
      else keyCount key tbl (key r) + 1 := by
  by_cases h : tbl.any (fun row => key row = key r) = true
  · simp only [upsertByKey, keyCount, h, if_true, List.countP_map]
    congr 1
    funext row
    by_cases hk : key row = key r <;> simp [Function.comp, hk]
  · simp only [upsertByKey, keyCount, h, if_false, List.countP_append]
    simp [List.countP_cons]

/-- An upsert never touches the row count at any other key. -/
theorem keyCount_upsertByKey_other {R K : Type} [DecidableEq K] (key : R → K)
    (tbl : List R) (r : R) (k : K) (hne : k ≠ key r) :
    keyCount key (upsertByKey key tbl r) k = keyCount key tbl k := by
  unfold upsertByKey keyCount
  split
  · rw [List.countP_map]
    congr 1
    funext row
    by_cases hk : key row = key r <;> simp [Function.comp, hk, Ne.symm hne]
  · rw [List.countP_append]
    simp [List.countP_cons, Ne.symm hne]

/-- After an upsert of `r`, every row carrying `r`'s key is `r` itself. -/
theorem mem_upsertByKey_eq {R K : Type} [DecidableEq K] (key : R → K)
    (tbl : List R) (r : R) :
    ∀ row ∈ upsertByKey key tbl r, key row = key r → row = r := by
  intro row hrow hkey
  unfold upsertByKey at hrow
  split at hrow
  · obtain ⟨row0, h0, rfl⟩ := List.mem_map.mp hrow
    by_cases hk : key row0 = key r
    · simp [hk]
    · simp only [if_neg hk] at hkey ⊢
      exact absurd hkey hk
  · rename_i hany
    rcases List.mem_append.mp hrow with h | h
    · exact absurd (List.any_eq_true.mpr ⟨row, h, by simp [hkey]⟩) hany
    · simpa using h

/-- An upsert preserves the PRIMARY KEY invariant. -/
theorem uniqueKeys_upsertByKey {R K : Type} [DecidableEq K] (key : R → K)
    (tbl : List R) (r : R) (hu : uniqueKeys key tbl) :
    uniqueKeys key (upsertByKey key tbl r) := by
  intro k
  by_cases hk : k = key r
  · subst hk
    rw [keyCount_upsertByKey_self]
    split
    · exact hu _
    · rename_i hany
      have h0 := keyCount_eq_zero_of_not_any key tbl (key r) hany
      omega
  · rw [keyCount_upsertByKey_other key tbl r k hk]
    exact hu k

/-- Under the PRIMARY KEY invariant, an upsert leaves exactly one row at
its own key. -/
theorem keyCount_upsertByKey_self_eq_one {R K : Type} [DecidableEq K]
    (key : R → K) (tbl : List R) (r : R) (hu : uniqueKeys key tbl) :
    keyCount key (upsertByKey key tbl r) (key r) = 1 := by
  rw [keyCount_upsertByKey_self]
  split
  · rename_i hany
    have hpos := keyCount_pos_of_any key tbl (key r) hany
    have hle := hu (key r)
    omega
  · rename_i hany
    have h0 := keyCount_eq_zero_of_not_any key tbl (key r) hany
    omega

/-- The empty table satisfies the PRIMARY KEY invariant. -/
theorem uniqueKeys_nil {R K : Type} [DecidableEq K] (key : R → K) :
    uniqueKeys key ([] : List R) := by
  intro k
  simp [keyCount]

/-- **C8** — for each of the three tables (`users`, `groups`,
`participants`), applying the same upsert twice to a store satisfying the
PRIMARY KEY invariant leaves exactly one row under the record's key; that
row holds the record's field values with `last_updated` equal to the time
of the second application; and the key invariant is preserved (rows are
updated, never duplicated). -/
theorem c8_upsert_twice_single_fresh_row :
    (∀ (tbl : List UserRow) (r : UserRecord) (t1 t2 : Nat),
        uniqueKeys (fun row => row.id) tbl →
        keyCount (fun row => row.id)
            (DatabaseModule.upsert_user (DatabaseModule.upsert_user tbl r t1) r t2)
            r.id = 1 ∧
        (∀ row ∈ DatabaseModule.upsert_user (DatabaseModule.upsert_user tbl r t1) r t2,
            row.id = r.id → row = r.toRow t2) ∧
        uniqueKeys (fun row => row.id)
          (DatabaseModule.upsert_user (DatabaseModule.upsert_user tbl r t1) r t2)) ∧
    (∀ (tbl : List GroupRow) (r : GroupRecord) (t1 t2 : Nat),
        uniqueKeys (fun row => row.id) tbl →
        keyCount (fun row => row.id)
            (DatabaseModule.upsert_group (DatabaseModule.upsert_group tbl r t1) r t2)
            r.id = 1 ∧
        (∀ row ∈ DatabaseModule.upsert_group (DatabaseModule.upsert_group tbl r t1) r t2,
            row.id = r.id → row = r.toRow t2) ∧
        uniqueKeys (fun row => row.id)
          (DatabaseModule.upsert_group (DatabaseModule.upsert_group tbl r t1) r t2)) ∧
    (∀ (tbl : List ParticipantRow) (r : ParticipantRecord) (t1 t2 : Nat),
        uniqueKeys (fun row => (row.user_id, row.group_id)) tbl →
        keyCount (fun row => (row.user_id, row.group_id))
            (DatabaseModule.upsert_participant
              (DatabaseModule.upsert_participant tbl r t1) r t2)
            (r.user_id, r.group_id) = 1 ∧
        (∀ row ∈ DatabaseModule.upsert_participant
              (DatabaseModule.upsert_participant tbl r t1) r t2,
            (row.user_id, row.group_id) = (r.user_id, r.group_id) → row = r.toRow t2) ∧
        uniqueKeys (fun row => (row.user_id, row.group_id))
          (DatabaseModule.upsert_participant
            (DatabaseModule.upsert_participant tbl r t1) r t2)) := by
  refine ⟨?_, ?_, ?_⟩ <;>
    intro tbl r t1 t2 hu <;>
    exact ⟨keyCount_upsertByKey_self_eq_one _ _ _ (uniqueKeys_upsertByKey _ _ _ hu),
           fun row h hk => mem_upsertByKey_eq _ _ _ row h hk,
           uniqueKeys_upsertByKey _ _ _ (uniqueKeys_upsertByKey _ _ _ hu)⟩

/-- Witness for `c8_upsert_twice_single_fresh_row`: concrete records
upserted twice into each of the three empty tables. -/
theorem c8_upsert_twice_single_fresh_row_witness :
    keyCount (fun row => row.id)
        (DatabaseModule.upsert_user
          (DatabaseModule.upsert_user [] ⟨1, some "a", none, some "u", none, false⟩ 10)
          ⟨1, some "a", none, some "u", none, false⟩ 20) 1 = 1 ∧
    keyCount (fun row => row.id)
        (DatabaseModule.upsert_group
          (DatabaseModule.upsert_group [] ⟨2, some "t", none, some 9⟩ 10)
          ⟨2, some "t", none, some 9⟩ 20) 2 = 1 ∧
    keyCount (fun row => (row.user_id, row.group_id))
        (DatabaseModule.upsert_participant
          (DatabaseModule.upsert_participant [] ⟨1, 2, some "a", none, none, none, none⟩ 10)
          ⟨1, 2, some "a", none, none, none, none⟩ 20) (1, 2) = 1 :=
  ⟨(c8_upsert_twice_single_fresh_row.1 [] ⟨1, some "a", none, some "u", none, false⟩
      10 20 (uniqueKeys_nil _)).1,
   (c8_upsert_twice_single_fresh_row.2.1 [] ⟨2, some "t", none, some 9⟩
      10 20 (uniqueKeys_nil _)).1,
   (c8_upsert_twice_single_fresh_row.2.2 [] ⟨1, 2, some "a", none, none, none, none⟩
      10 20 (uniqueKeys_nil _)).1⟩

/-- **C3** — for every request count and configured `base_delay`,
`max_delay` and `backoff_factor`, the Rate Governor's un-jittered delay
(`calculate_delay` with the jitter draw fixed to zero and the rolling
window not yet expired) equals the specification's tier formula over the
load factor `f`: `base` for `f < 0.25`, `2×base` for `f < 0.5`, `3×base`
for `f < 0.75`, else `base×backoff^(f×10)` — the result then clamped to
`max_delay` and floored at `0.5` seconds. -/
theorem c3_unjittered_delay_matches_spec_tiers (lb : LoadBalancer) :
    lb.calculate_delay false 0 =
      specUnjitteredDelay lb.base_delay lb.max_delay lb.backoff_factor lb.loadFactor := by
  obtain ⟨cnt, mx, bd, md, bf⟩ := lb
  unfold LoadBalancer.calculate_delay specUnjitteredDelay LoadBalancer.loadFactor
  simp only [Bool.false_eq_true, if_false, zero_mul, add_zero]
  split_ifs <;> first | rfl | rw [mul_comm]

/-- **C7** — under `execute_with_rate_limit`, a failing operation leaves
the governor's `base_delay` at `min(base_delay × backoff_factor,
max_delay)`, while a successful operation leaves `base_delay` unchanged
(only the request counter moves). -/
theorem c7_backoff_on_failure_only (α : Type) (lb : LoadBalancer)
    (w : Bool) (j : ℝ) :
    (∀ e : PyErr,
        ((ConfigManager.execute_with_rate_limit (α := α) lb w j (.error e)).2).base_delay =
          min (lb.base_delay * lb.backoff_factor) lb.max_delay) ∧
    (∀ v : α,
        ((ConfigManager.execute_with_rate_limit lb w j (.ok v)).2).base_delay =
          lb.base_delay) :=
  ⟨fun _ => rfl, fun _ => rfl⟩
